import Mathlib

/-!
Verification of the ironic inspection/locking core against its specification.

The repository slice under scrutiny contains the SQLAlchemy schema
(`ironic/db/sqlalchemy/models.py`) and the conductor inspection tests
(`ironic/tests/unit/conductor/test_inspection.py`).  The conductor modules
themselves (`ironic/conductor/inspection.py`, `ironic/conductor/task_manager.py`,
`ironic/common/states.py`) are not part of the slice, so those components are
modelled from the specification (each such definition carries a
`Modelled from the spec:` doc comment), guided by the behaviour the in-repo
tests pin down.  The schema and the JSON column type decorators are embedded
directly from `models.py`.
-/

deriving instance DecidableEq for Except

namespace Ironic

/-- Modelled from the spec: the provisioning-state enumeration
(`ironic/common/states.py` is absent from the slice).  Relevant members per
spec section 4.2: `INSPECTING`, `INSPECTWAIT`, `MANAGEABLE`, `INSPECTFAIL`,
plus `NOSTATE`, the value of `target_provision_state` when no workflow is
active. -/
inductive PState where
  | NOSTATE
  | INSPECTING
  | INSPECTWAIT
  | MANAGEABLE
  | INSPECTFAIL
  deriving DecidableEq, Repr, Fintype

/-- Modelled from the spec: the printable token of a provisioning state, used
when an unexpected driver return value is interpolated into `last_error`. -/
def stateName : PState → String
  | .NOSTATE => "None"
  | .INSPECTING => "INSPECTING"
  | .INSPECTWAIT => "INSPECTWAIT"
  | .MANAGEABLE => "MANAGEABLE"
  | .INSPECTFAIL => "INSPECTFAIL"

/-- Modelled from the spec: a value returned by `DriverInterface.inspect_hardware`:
Python `None`, a recognized state token, or an unrecognized token
(spec section 4.3, row 3: "returns any other value, incl. none/unrecognized"). -/
inductive RetVal where
  | noneVal
  | state (s : PState)
  | token (t : String)
  deriving DecidableEq, Repr

/-- Modelled from the spec: the printable form of a driver return value. -/
def retRepr : RetVal → String
  | .noneVal => "None"
  | .state s => stateName s
  | .token t => t

/-- Modelled from the spec: the observable behaviour of one driver invocation
(`DriverInterface.inspect_hardware` is external): it returns a value, raises
the declared inspection failure with a message, or raises an undeclared error
of some kind with a message. -/
inductive DriverCall where
  | ret (v : RetVal)
  | raiseInspectionFailure (msg : String)
  | raiseOther (kind : String) (msg : String)
  deriving DecidableEq, Repr

/-- Modelled from the spec: the single normalized inspection-failure error kind
(`exception.HardwareInspectionFailure` in the tests; `ironic/common/exception.py`
is absent from the slice). -/
inductive InspectError where
  | hardwareInspectionFailure (msg : String)
  deriving DecidableEq, Repr

/-- Modelled from the spec: the node fields the inspection workflow reads and
mutates (spec section 3); the durable record behind it is `models.py` `Node`. -/
structure WNode where
  provision_state : PState
  target_provision_state : PState
  last_error : Option String
  driver_internal_info : List (String × String)
  deriving DecidableEq, Repr

/-- Modelled from the spec: the `driver_internal_info` entries tagged as
ephemeral, which must be purged on workflow completion; the in-repo test
`test_inspect_hardware_ok` pins `agent_url` and `agent_secret_token`. -/
def ephemeralKeys : List String := ["agent_url", "agent_secret_token"]

/-- Modelled from the spec: purging the ephemeral `driver_internal_info`
entries on successful workflow completion (spec section 4.3, row 1). -/
def purge_ephemeral (info : List (String × String)) : List (String × String) :=
  info.filter (fun kv => !(ephemeralKeys.contains kv.fst))

/-- Modelled from the spec: the result of one run of the inspection workflow:
the node as persisted before the workflow returns or raises, the normal/raised
outcome handed to the caller, and whether a message was logged at error
severity. -/
structure InspectResult where
  node : WNode
  outcome : Except InspectError Unit
  errorLogged : Bool

/-- Modelled from the spec: `ironic/conductor/inspection.py` `inspect_hardware`
(absent from the slice).  Spec section 4.3: invoke the bound driver once, then
apply exactly one of the five outcome rows, persisting the node mutation
before returning or raising.  Row 1: `MANAGEABLE` returned — success, clear
`last_error`, purge ephemeral entries.  Row 2: `INSPECTWAIT` returned —
asynchronous continuation.  Row 3: any other value — fail with
"driver returned unexpected state", logged at error severity.  Row 4: declared
failure re-raised unchanged.  Row 5: undeclared error wrapped into the
declared kind. -/
def inspect_hardware (node : WNode) (driver : DriverCall) : InspectResult :=
  match driver with
  | .ret (.state .MANAGEABLE) =>
      { node := { node with
          provision_state := .MANAGEABLE
          target_provision_state := .NOSTATE
          last_error := none
          driver_internal_info := purge_ephemeral node.driver_internal_info }
        outcome := .ok ()
        errorLogged := false }
  | .ret (.state .INSPECTWAIT) =>
      { node := { node with
          provision_state := .INSPECTWAIT
          target_provision_state := .MANAGEABLE }
        outcome := .ok ()
        errorLogged := false }
  | .ret v =>
      let msg := "driver returned unexpected state" ++ (": " ++ retRepr v)
      { node := { node with
          provision_state := .INSPECTFAIL
          target_provision_state := .MANAGEABLE
          last_error := some msg }
        outcome := .error (.hardwareInspectionFailure msg)
        errorLogged := true }
  | .raiseInspectionFailure m =>
      { node := { node with
          provision_state := .INSPECTFAIL
          target_provision_state := .MANAGEABLE
          last_error := some m }
        outcome := .error (.hardwareInspectionFailure m)
        errorLogged := false }
  | .raiseOther k m =>
      let msg := "Unexpected exception of type " ++ k ++ ": " ++ m
      { node := { node with
          provision_state := .INSPECTFAIL
          target_provision_state := .MANAGEABLE
          last_error := some msg }
        outcome := .error (.hardwareInspectionFailure msg)
        errorLogged := false }

/-- Purged `driver_internal_info` never contains an entry whose key is
ephemeral. -/
theorem purge_ephemeral_not_mem (info : List (String × String)) (k v : String)
    (hk : k ∈ ephemeralKeys) : (k, v) ∉ purge_ephemeral info := by
  intro hmem
  rw [purge_ephemeral, List.mem_filter] at hmem
  have hc : ephemeralKeys.contains k = true := by
    fin_cases hk <;> decide
  rw [hc] at hmem
  simp at hmem

/-- Concrete node used to instantiate the workflow theorems: in `INSPECTING`
with the two ephemeral scratch entries of the in-repo test
`test_inspect_hardware_ok`. -/
def exampleNode : WNode :=
  { provision_state := .INSPECTING
    target_provision_state := .NOSTATE
    last_error := none
    driver_internal_info :=
      [("agent_url", "url"), ("agent_secret_token", "token"), ("keep", "me")] }

/-- C2: for a node in `INSPECTING`, a driver returning `MANAGEABLE` makes
`inspect_hardware` complete normally with the node persisted as
`provision_state = MANAGEABLE`, `target_provision_state = NOSTATE`,
`last_error` cleared, and every ephemeral `driver_internal_info` entry
removed. -/
theorem inspect_hardware_manageable (node : WNode)
    (h : node.provision_state = PState.INSPECTING) :
    (inspect_hardware node (.ret (.state .MANAGEABLE))).outcome = Except.ok () ∧
    (inspect_hardware node (.ret (.state .MANAGEABLE))).node.provision_state
      = PState.MANAGEABLE ∧
    (inspect_hardware node (.ret (.state .MANAGEABLE))).node.target_provision_state
      = PState.NOSTATE ∧
    (inspect_hardware node (.ret (.state .MANAGEABLE))).node.last_error = none ∧
    ∀ k v, k ∈ ephemeralKeys →
      (k, v) ∉ (inspect_hardware node
        (.ret (.state .MANAGEABLE))).node.driver_internal_info := by
  refine ⟨rfl, rfl, rfl, rfl, ?_⟩
  intro k v hk
  exact purge_ephemeral_not_mem node.driver_internal_info k v hk

/-- C2 witness: the success path evaluated on the concrete test node. -/
theorem inspect_hardware_manageable_witness :
    (inspect_hardware exampleNode (.ret (.state .MANAGEABLE))).outcome = Except.ok () ∧
    (inspect_hardware exampleNode (.ret (.state .MANAGEABLE))).node.provision_state
      = PState.MANAGEABLE ∧
    (inspect_hardware exampleNode (.ret (.state .MANAGEABLE))).node.target_provision_state
      = PState.NOSTATE ∧
    (inspect_hardware exampleNode (.ret (.state .MANAGEABLE))).node.last_error = none ∧
    ∀ k v, k ∈ ephemeralKeys →
      (k, v) ∉ (inspect_hardware exampleNode
        (.ret (.state .MANAGEABLE))).node.driver_internal_info :=
  inspect_hardware_manageable exampleNode rfl

/-- C3: for a node in `INSPECTING` with `last_error` still `None`, a driver
returning `INSPECTWAIT` makes `inspect_hardware` complete normally with the
node persisted as `provision_state = INSPECTWAIT`,
`target_provision_state = MANAGEABLE`, and `last_error` unchanged (still
`None`). -/
theorem inspect_hardware_inspectwait (node : WNode)
    (h : node.provision_state = PState.INSPECTING)
    (hle : node.last_error = none) :
    (inspect_hardware node (.ret (.state .INSPECTWAIT))).outcome = Except.ok () ∧
    (inspect_hardware node (.ret (.state .INSPECTWAIT))).node.provision_state
      = PState.INSPECTWAIT ∧
    (inspect_hardware node (.ret (.state .INSPECTWAIT))).node.target_provision_state
      = PState.MANAGEABLE ∧
    (inspect_hardware node (.ret (.state .INSPECTWAIT))).node.last_error
      = node.last_error ∧
    (inspect_hardware node (.ret (.state .INSPECTWAIT))).node.last_error = none :=
  ⟨rfl, rfl, rfl, rfl, by rw [show (inspect_hardware node
    (.ret (.state .INSPECTWAIT))).node.last_error = node.last_error from rfl, hle]⟩

/-- C3 witness: the wait path evaluated on the concrete test node. -/
theorem inspect_hardware_inspectwait_witness :
    (inspect_hardware exampleNode (.ret (.state .INSPECTWAIT))).outcome = Except.ok () ∧
    (inspect_hardware exampleNode (.ret (.state .INSPECTWAIT))).node.provision_state
      = PState.INSPECTWAIT ∧
    (inspect_hardware exampleNode (.ret (.state .INSPECTWAIT))).node.target_provision_state
      = PState.MANAGEABLE ∧
    (inspect_hardware exampleNode (.ret (.state .INSPECTWAIT))).node.last_error
      = exampleNode.last_error ∧
    (inspect_hardware exampleNode (.ret (.state .INSPECTWAIT))).node.last_error = none :=
  inspect_hardware_inspectwait exampleNode rfl rfl

/-- C4: for a node in `INSPECTING`, a driver returning anything other than
`MANAGEABLE` or `INSPECTWAIT` (including `None`, an unrecognized token, or
`INSPECTING` itself) is persisted as `provision_state = INSPECTFAIL`,
`target_provision_state = MANAGEABLE`, `last_error` containing
"driver returned unexpected state", the error is logged at error severity,
and the workflow raises the single normalized inspection-failure kind. -/
theorem inspect_hardware_unexpected_return (node : WNode) (v : RetVal)
    (h : node.provision_state = PState.INSPECTING)
    (h1 : v ≠ .state .MANAGEABLE) (h2 : v ≠ .state .INSPECTWAIT) :
    (inspect_hardware node (.ret v)).node.provision_state = PState.INSPECTFAIL ∧
    (inspect_hardware node (.ret v)).node.target_provision_state
      = PState.MANAGEABLE ∧
    (∃ rest, (inspect_hardware node (.ret v)).node.last_error
      = some ("driver returned unexpected state" ++ rest)) ∧
    (inspect_hardware node (.ret v)).errorLogged = true ∧
    (∃ m, (inspect_hardware node (.ret v)).outcome
        = Except.error (.hardwareInspectionFailure m) ∧
      (inspect_hardware node (.ret v)).node.last_error = some m) := by
  cases v with
  | noneVal => exact ⟨rfl, rfl, ⟨": " ++ retRepr .noneVal, rfl⟩, rfl, ⟨_, rfl, rfl⟩⟩
  | token t => exact ⟨rfl, rfl, ⟨": " ++ retRepr (.token t), rfl⟩, rfl, ⟨_, rfl, rfl⟩⟩
  | state s =>
    cases s with
    | MANAGEABLE => exact absurd rfl h1
    | INSPECTWAIT => exact absurd rfl h2
    | NOSTATE =>
        exact ⟨rfl, rfl, ⟨": " ++ retRepr (.state .NOSTATE), rfl⟩, rfl, ⟨_, rfl, rfl⟩⟩
    | INSPECTING =>
        exact ⟨rfl, rfl, ⟨": " ++ retRepr (.state .INSPECTING), rfl⟩, rfl, ⟨_, rfl, rfl⟩⟩
    | INSPECTFAIL =>
        exact ⟨rfl, rfl, ⟨": " ++ retRepr (.state .INSPECTFAIL), rfl⟩, rfl, ⟨_, rfl, rfl⟩⟩

/-- C4 witness: the driver returning `INSPECTING` itself, as in the in-repo
test `test_inspect_hardware_return_inspecting`. -/
theorem inspect_hardware_unexpected_return_witness :
    (inspect_hardware exampleNode (.ret (.state .INSPECTING))).node.provision_state
      = PState.INSPECTFAIL ∧
    (inspect_hardware exampleNode (.ret (.state .INSPECTING))).node.target_provision_state
      = PState.MANAGEABLE ∧
    (∃ rest, (inspect_hardware exampleNode (.ret (.state .INSPECTING))).node.last_error
      = some ("driver returned unexpected state" ++ rest)) ∧
    (inspect_hardware exampleNode (.ret (.state .INSPECTING))).errorLogged = true ∧
    (∃ m, (inspect_hardware exampleNode (.ret (.state .INSPECTING))).outcome
        = Except.error (.hardwareInspectionFailure m) ∧
      (inspect_hardware exampleNode (.ret (.state .INSPECTING))).node.last_error
        = some m) :=
  inspect_hardware_unexpected_return exampleNode (.state .INSPECTING) rfl
    (by decide) (by decide)

/-- C5: for a node in `INSPECTING`, a driver raising the declared inspection
failure with message `M` is persisted as `provision_state = INSPECTFAIL`,
`target_provision_state = MANAGEABLE`, `last_error = M`, and the failure is
re-raised with exactly the message `M`. -/
theorem inspect_hardware_declared_failure (node : WNode) (m : String)
    (h : node.provision_state = PState.INSPECTING) :
    (inspect_hardware node (.raiseInspectionFailure m)).node.provision_state
      = PState.INSPECTFAIL ∧
    (inspect_hardware node (.raiseInspectionFailure m)).node.target_provision_state
      = PState.MANAGEABLE ∧
    (inspect_hardware node (.raiseInspectionFailure m)).node.last_error = some m ∧
    (inspect_hardware node (.raiseInspectionFailure m)).outcome
      = Except.error (.hardwareInspectionFailure m) :=
  ⟨rfl, rfl, rfl, rfl⟩

/-- C5 witness: the declared failure with message "test", as in the in-repo
test `test_inspect_hardware_raises_error`. -/
theorem inspect_hardware_declared_failure_witness :
    (inspect_hardware exampleNode (.raiseInspectionFailure "test")).node.provision_state
      = PState.INSPECTFAIL ∧
    (inspect_hardware exampleNode (.raiseInspectionFailure "test")).node.target_provision_state
      = PState.MANAGEABLE ∧
    (inspect_hardware exampleNode (.raiseInspectionFailure "test")).node.last_error
      = some "test" ∧
    (inspect_hardware exampleNode (.raiseInspectionFailure "test")).outcome
      = Except.error (.hardwareInspectionFailure "test") :=
  inspect_hardware_declared_failure exampleNode "test" rfl

/-- C6: for a node in `INSPECTING`, a driver raising an undeclared error of
kind `K` with message `m` is persisted as `provision_state = INSPECTFAIL`,
`target_provision_state = MANAGEABLE`,
`last_error = "Unexpected exception of type K: m"`, and the workflow raises
the declared inspection-failure kind carrying that same message. -/
theorem inspect_hardware_undeclared_failure (node : WNode) (k m : String)
    (h : node.provision_state = PState.INSPECTING) :
    (inspect_hardware node (.raiseOther k m)).node.provision_state
      = PState.INSPECTFAIL ∧
    (inspect_hardware node (.raiseOther k m)).node.target_provision_state
      = PState.MANAGEABLE ∧
    (inspect_hardware node (.raiseOther k m)).node.last_error
      = some ("Unexpected exception of type " ++ k ++ ": " ++ m) ∧
    (inspect_hardware node (.raiseOther k m)).outcome
      = Except.error (.hardwareInspectionFailure
          ("Unexpected exception of type " ++ k ++ ": " ++ m)) :=
  ⟨rfl, rfl, rfl, rfl⟩

/-- C6 witness: a `RuntimeError` with message "x", as in the in-repo test
`test_inspect_hardware_unexpected_error`. -/
theorem inspect_hardware_undeclared_failure_witness :
    (inspect_hardware exampleNode (.raiseOther "RuntimeError" "x")).node.provision_state
      = PState.INSPECTFAIL ∧
    (inspect_hardware exampleNode (.raiseOther "RuntimeError" "x")).node.target_provision_state
      = PState.MANAGEABLE ∧
    (inspect_hardware exampleNode (.raiseOther "RuntimeError" "x")).node.last_error
      = some ("Unexpected exception of type " ++ "RuntimeError" ++ ": " ++ "x") ∧
    (inspect_hardware exampleNode (.raiseOther "RuntimeError" "x")).outcome
      = Except.error (.hardwareInspectionFailure
          ("Unexpected exception of type " ++ "RuntimeError" ++ ": " ++ "x")) :=
  inspect_hardware_undeclared_failure exampleNode "RuntimeError" "x" rfl

/-- C7: for every driver outcome, the persisted
`(provision_state, target_provision_state, last_error)` triple of
`inspect_hardware` is one of the rows of the outcome table — success row,
wait row, or one of the three failure rows (which share the
`INSPECTFAIL`/`MANAGEABLE`/`last_error = raised message` shape) — and no exit
path leaves `provision_state` at `INSPECTING`. -/
theorem inspect_hardware_outcome_table (node : WNode) (d : DriverCall)
    (h : node.provision_state = PState.INSPECTING) :
    (inspect_hardware node d).node.provision_state ≠ PState.INSPECTING ∧
    (((inspect_hardware node d).node.provision_state = PState.MANAGEABLE ∧
      (inspect_hardware node d).node.target_provision_state = PState.NOSTATE ∧
      (inspect_hardware node d).node.last_error = none ∧
      (inspect_hardware node d).outcome = Except.ok ()) ∨
     ((inspect_hardware node d).node.provision_state = PState.INSPECTWAIT ∧
      (inspect_hardware node d).node.target_provision_state = PState.MANAGEABLE ∧
      (inspect_hardware node d).node.last_error = node.last_error ∧
      (inspect_hardware node d).outcome = Except.ok ()) ∨
     ((inspect_hardware node d).node.provision_state = PState.INSPECTFAIL ∧
      (inspect_hardware node d).node.target_provision_state = PState.MANAGEABLE ∧
      ∃ m, (inspect_hardware node d).node.last_error = some m ∧
        (inspect_hardware node d).outcome
          = Except.error (.hardwareInspectionFailure m))) := by
  cases d with
  | ret v =>
    cases v with
    | noneVal => exact ⟨fun hc => PState.noConfusion hc, Or.inr (Or.inr ⟨rfl, rfl, _, rfl, rfl⟩)⟩
    | token t => exact ⟨fun hc => PState.noConfusion hc, Or.inr (Or.inr ⟨rfl, rfl, _, rfl, rfl⟩)⟩
    | state s =>
      cases s with
      | MANAGEABLE => exact ⟨fun hc => PState.noConfusion hc, Or.inl ⟨rfl, rfl, rfl, rfl⟩⟩
      | INSPECTWAIT => exact ⟨fun hc => PState.noConfusion hc, Or.inr (Or.inl ⟨rfl, rfl, rfl, rfl⟩)⟩
      | NOSTATE => exact ⟨fun hc => PState.noConfusion hc, Or.inr (Or.inr ⟨rfl, rfl, _, rfl, rfl⟩)⟩
      | INSPECTING => exact ⟨fun hc => PState.noConfusion hc, Or.inr (Or.inr ⟨rfl, rfl, _, rfl, rfl⟩)⟩
      | INSPECTFAIL => exact ⟨fun hc => PState.noConfusion hc, Or.inr (Or.inr ⟨rfl, rfl, _, rfl, rfl⟩)⟩
  | raiseInspectionFailure m => exact ⟨fun hc => PState.noConfusion hc, Or.inr (Or.inr ⟨rfl, rfl, m, rfl, rfl⟩)⟩
  | raiseOther k m => exact ⟨fun hc => PState.noConfusion hc, Or.inr (Or.inr ⟨rfl, rfl, _, rfl, rfl⟩)⟩

/-- C7 witness: the undeclared-error exit path evaluated on the concrete test
node. -/
theorem inspect_hardware_outcome_table_witness :
    (inspect_hardware exampleNode (.raiseOther "RuntimeError" "x")).node.provision_state
      ≠ PState.INSPECTING ∧
    (((inspect_hardware exampleNode (.raiseOther "RuntimeError" "x")).node.provision_state
        = PState.MANAGEABLE ∧
      (inspect_hardware exampleNode (.raiseOther "RuntimeError" "x")).node.target_provision_state
        = PState.NOSTATE ∧
      (inspect_hardware exampleNode (.raiseOther "RuntimeError" "x")).node.last_error = none ∧
      (inspect_hardware exampleNode (.raiseOther "RuntimeError" "x")).outcome
        = Except.ok ()) ∨
     ((inspect_hardware exampleNode (.raiseOther "RuntimeError" "x")).node.provision_state
        = PState.INSPECTWAIT ∧
      (inspect_hardware exampleNode (.raiseOther "RuntimeError" "x")).node.target_provision_state
        = PState.MANAGEABLE ∧
      (inspect_hardware exampleNode (.raiseOther "RuntimeError" "x")).node.last_error
        = exampleNode.last_error ∧
      (inspect_hardware exampleNode (.raiseOther "RuntimeError" "x")).outcome
        = Except.ok ()) ∨
     ((inspect_hardware exampleNode (.raiseOther "RuntimeError" "x")).node.provision_state
        = PState.INSPECTFAIL ∧
      (inspect_hardware exampleNode (.raiseOther "RuntimeError" "x")).node.target_provision_state
        = PState.MANAGEABLE ∧
      ∃ m, (inspect_hardware exampleNode (.raiseOther "RuntimeError" "x")).node.last_error
          = some m ∧
        (inspect_hardware exampleNode (.raiseOther "RuntimeError" "x")).outcome
          = Except.error (.hardwareInspectionFailure m))) :=
  inspect_hardware_outcome_table exampleNode (.raiseOther "RuntimeError" "x") rfl

/-- Modelled from the spec: the per-node record the lock manager touches.
The `reservation` field is the `models.py` `Node.reservation` column (line
149, nullable string naming the holding conductor); `holdCount` is the
internal hold count of spec section 4.1 for re-entrant acquisition. -/
structure TMNode where
  reservation : Option String
  holdCount : Nat
  deriving DecidableEq, Repr

/-- Modelled from the spec: the NodeStore interface (external; get-by-identifier
and save), as a partial map from identifier to record. -/
def NodeStore : Type := String → Option TMNode

/-- Modelled from the spec: `NodeStore.save`, writing back one record under
its identifier. -/
def NodeStore.save (store : NodeStore) (identifier : String) (node : TMNode) :
    NodeStore :=
  fun k => if k = identifier then some node else store k

/-- Modelled from the spec: the pre-condition failures of the lock manager,
`NotFound(identifier)` and `LockConflict(identifier, holder)` (spec sections
4.1 and 6). -/
inductive TMError where
  | notFound (identifier : String)
  | lockConflict (identifier : String) (currentHolder : String)
  deriving DecidableEq, Repr

/-- Modelled from the spec: `TaskManager.acquire(identifier, holder)`
(`ironic/conductor/task_manager.py` is absent from the slice).  Spec section
4.1: fail with `NotFound` when no node matches; fail immediately with
`LockConflict(currentHolder)` when `reservation` names a different holder;
re-entrant acquisition by the same holder increments the hold count; otherwise
an atomic compare-and-set writes the holder into `reservation`. -/
def acquire (store : NodeStore) (identifier holder : String) :
    Except TMError NodeStore :=
  match store identifier with
  | none => .error (.notFound identifier)
  | some node =>
    match node.reservation with
    | some current =>
        if current = holder then
          .ok (store.save identifier { node with holdCount := node.holdCount + 1 })
        else
          .error (.lockConflict identifier current)
    | none =>
        .ok (store.save identifier
          { node with reservation := some holder, holdCount := 1 })

/-- Modelled from the spec: `TaskManager.release` (spec section 4.1):
decrement the hold count; at zero, clear `reservation`. -/
def release (store : NodeStore) (identifier : String) : NodeStore :=
  match store identifier with
  | none => store
  | some node =>
      if node.holdCount ≤ 1 then
        store.save identifier { node with reservation := none, holdCount := 0 }
      else
        store.save identifier { node with holdCount := node.holdCount - 1 }

/-- C1: `acquire` fails with `NotFound` when no node matches the identifier;
fails (immediately, being a pure function — there is nothing to block on)
with `LockConflict` naming the current holder when the reservation is held by
a different holder; otherwise writes the holder into `reservation`; and after
the matching `release` the reservation is empty and a subsequent `acquire` by
any holder succeeds. -/
theorem acquire_release_spec (store : NodeStore) (identifier holder : String) :
    (store identifier = none →
      acquire store identifier holder = .error (.notFound identifier)) ∧
    (∀ node current, store identifier = some node →
      node.reservation = some current → current ≠ holder →
      acquire store identifier holder
        = .error (.lockConflict identifier current)) ∧
    (∀ node, store identifier = some node → node.reservation = none →
      ∃ locked, acquire store identifier holder = .ok locked ∧
        (locked identifier).map TMNode.reservation = some (some holder) ∧
        ((release locked identifier) identifier).map TMNode.reservation
          = some none ∧
        ∀ holder2, ∃ relocked,
          acquire (release locked identifier) identifier holder2 = .ok relocked ∧
          (relocked identifier).map TMNode.reservation
            = some (some holder2)) := by
  refine ⟨fun hmiss => ?_, fun node current hfind hres hne => ?_,
    fun node hfind hres => ?_⟩
  · rw [acquire, hmiss]
  · simp [acquire, hfind, hres, hne]
  · refine ⟨store.save identifier
      { node with reservation := some holder, holdCount := 1 }, ?_, ?_, ?_, ?_⟩
    · simp [acquire, hfind, hres]
    · simp [NodeStore.save]
    · simp [release, NodeStore.save]
    · intro holder2
      refine ⟨(release (store.save identifier
          { node with reservation := some holder, holdCount := 1 }) identifier).save
          identifier { reservation := some holder2, holdCount := 1 }, ?_, ?_⟩
      · simp [acquire, release, NodeStore.save]
      · simp [NodeStore.save]

/-- Concrete one-node store used to instantiate the lock-lifecycle theorem:
`node-1` enrolled and unlocked. -/
def exampleStore : NodeStore :=
  fun k => if k = "node-1" then some { reservation := none, holdCount := 0 }
           else none

/-- C1 witness: on the concrete store, acquiring a missing node fails with
`NotFound`, and the acquire/release lifecycle on `node-1` behaves as
specified. -/
theorem acquire_release_spec_witness :
    acquire exampleStore "node-2" "cond-a" = .error (.notFound "node-2") ∧
    (∃ locked, acquire exampleStore "node-1" "cond-a" = .ok locked ∧
      (locked "node-1").map TMNode.reservation = some (some "cond-a") ∧
      ((release locked "node-1") "node-1").map TMNode.reservation = some none ∧
      ∀ holder2, ∃ relocked,
        acquire (release locked "node-1") "node-1" holder2 = .ok relocked ∧
        (relocked "node-1").map TMNode.reservation = some (some holder2)) :=
  ⟨(acquire_release_spec exampleStore "node-2" "cond-a").1 rfl,
   (acquire_release_spec exampleStore "node-1" "cond-a").2.2
     { reservation := none, holdCount := 0 } rfl rfl⟩

/-- Modelled from the spec: the workflow events driving provisioning-state
transitions (the state-machine module is absent from the slice; events are
named after the inspection workflow steps of spec sections 4.2 and 4.3). -/
inductive Event where
  | inspect
  | wait
  | done
  | fail
  deriving DecidableEq, Repr, Fintype

/-- Modelled from the spec: the target policy of a transition
(spec section 4.2): `target_provision_state` is cleared to `NOSTATE` only on
a stable terminal state with no pending action, and is otherwise set to the
eventual goal. -/
inductive TargetPolicy where
  | clearTarget
  | setTarget (goal : PState)
  deriving DecidableEq, Repr, Fintype

/-- Modelled from the spec: `InvalidStateTransition`, reported for any
`(provision_state, event)` pair absent from the transition table. -/
inductive SMError where
  | invalidStateTransition (fromState : PState) (event : Event)
  deriving DecidableEq, Repr

/-- Modelled from the spec: the pure transition function of the StateMachine
(spec section 4.2), covering the inspection-relevant states: `INSPECTING`
resolves to success, wait, or failure; `INSPECTWAIT` resolves asynchronously;
`MANAGEABLE` and the retry-eligible `INSPECTFAIL` may re-enter inspection.
Any pair absent from the table fails with `InvalidStateTransition`. -/
def transition : PState → Event → Except SMError (PState × TargetPolicy)
  | .INSPECTING, .done => .ok (.MANAGEABLE, .clearTarget)
  | .INSPECTING, .wait => .ok (.INSPECTWAIT, .setTarget .MANAGEABLE)
  | .INSPECTING, .fail => .ok (.INSPECTFAIL, .setTarget .MANAGEABLE)
  | .INSPECTWAIT, .done => .ok (.MANAGEABLE, .clearTarget)
  | .INSPECTWAIT, .fail => .ok (.INSPECTFAIL, .setTarget .MANAGEABLE)
  | .MANAGEABLE, .inspect => .ok (.INSPECTING, .setTarget .MANAGEABLE)
  | .INSPECTFAIL, .inspect => .ok (.INSPECTING, .setTarget .MANAGEABLE)
  | s, e => .error (.invalidStateTransition s e)

/-- Modelled from the spec: the transition table as data, row for row the
pairs the StateMachine accepts. -/
def transitionTable : List ((PState × Event) × (PState × TargetPolicy)) :=
  [((.INSPECTING, .done), (.MANAGEABLE, .clearTarget)),
   ((.INSPECTING, .wait), (.INSPECTWAIT, .setTarget .MANAGEABLE)),
   ((.INSPECTING, .fail), (.INSPECTFAIL, .setTarget .MANAGEABLE)),
   ((.INSPECTWAIT, .done), (.MANAGEABLE, .clearTarget)),
   ((.INSPECTWAIT, .fail), (.INSPECTFAIL, .setTarget .MANAGEABLE)),
   ((.MANAGEABLE, .inspect), (.INSPECTING, .setTarget .MANAGEABLE)),
   ((.INSPECTFAIL, .inspect), (.INSPECTING, .setTarget .MANAGEABLE))]

/-- Modelled from the spec: the `target_provision_state` value a target policy
produces. -/
def applyPolicy : TargetPolicy → PState
  | .clearTarget => .NOSTATE
  | .setTarget goal => goal

/-- Modelled from the spec: applying one StateMachine step to a node; on
`InvalidStateTransition` no node is produced, so the caller's node is
untouched. -/
def applyTransition (node : WNode) (e : Event) : Except SMError WNode :=
  (transition node.provision_state e).map fun r =>
    { node with
        provision_state := r.fst
        target_provision_state := applyPolicy r.snd }

/-- Every `(state, event)` pair is either tabulated, and then `transition`
returns exactly the tabulated row, or absent, and then `transition` fails
with `InvalidStateTransition`. -/
theorem transition_table_complete (s : PState) (e : Event) :
    (∀ r, ((s, e), r) ∈ transitionTable → transition s e = .ok r) ∧
    ((s, e) ∉ transitionTable.map Prod.fst →
      transition s e = .error (.invalidStateTransition s e)) := by
  revert e
  revert s
  decide

/-- C8: the StateMachine is a pure function on `(provision_state, event)`:
for every pair present in the transition table it returns the tabulated
`(next_state, target_policy)`, and for every pair absent it fails with
`InvalidStateTransition`, producing no node, so the node state is unchanged
on error. -/
theorem state_machine_spec (node : WNode) (e : Event) :
    (∀ r, ((node.provision_state, e), r) ∈ transitionTable →
      transition node.provision_state e = .ok r) ∧
    ((node.provision_state, e) ∉ transitionTable.map Prod.fst →
      applyTransition node e
        = .error (.invalidStateTransition node.provision_state e)) := by
  obtain ⟨h1, h2⟩ := transition_table_complete node.provision_state e
  refine ⟨h1, fun habs => ?_⟩
  simp [applyTransition, h2 habs, Except.map]

/-- C8 witness: on the concrete test node in `INSPECTING`, the tabulated
`done` event succeeds with the tabulated row, and the untabulated `inspect`
event fails with `InvalidStateTransition`. -/
theorem state_machine_spec_witness :
    transition exampleNode.provision_state Event.done
      = .ok (.MANAGEABLE, .clearTarget) ∧
    applyTransition exampleNode Event.inspect
      = .error (.invalidStateTransition PState.INSPECTING Event.inspect) :=
  ⟨(state_machine_spec exampleNode Event.done).1
      (.MANAGEABLE, .clearTarget) (by decide),
   (state_machine_spec exampleNode Event.inspect).2 (by decide)⟩

/-- Column names of the `nodes` table declared by `models.py` `Node` (lines
126-152), in declaration order. -/
def nodeColumns : List String :=
  ["id", "uuid", "instance_uuid", "chassis_id", "power_state",
   "target_power_state", "provision_state", "target_provision_state",
   "provision_updated_at", "last_error", "properties", "driver",
   "driver_info", "reservation", "maintenance", "console_enabled", "extra"]

/-- C9: the `Node` schema of `models.py` declares an operator-supplied
`driver_info` column but no `driver_internal_info` column, although the
in-repo inspection tests read and write `node.driver_internal_info`. -/
theorem node_schema_driver_internal_info :
    "driver_info" ∈ nodeColumns ∧ "driver_internal_info" ∉ nodeColumns := by
  decide

/-- Hashable Python values usable as dict keys.  `json.dumps` coerces `str`,
`int`, `bool` and `None` keys to strings; any other hashable key (tuple,
frozenset, object, ...) makes it raise `TypeError`. -/
inductive PyKey where
  | kstr (s : String)
  | kint (n : Int)
  | kbool (b : Bool)
  | knone
  | khashable (tag : String)
  deriving DecidableEq, Repr

/-- Python values the JSON column types may be handed: `None`, booleans,
integers, strings, lists, dicts, and arbitrary non-serializable objects
(floats are out of scope of this embedding). -/
inductive PyVal where
  | pynone
  | pybool (b : Bool)
  | pyint (n : Int)
  | pystr (s : String)
  | pylist (elems : List PyVal)
  | pydict (entries : List (PyKey × PyVal))
  | pyobj (tag : String)

/-- JSON documents, the denotation of the strings `json.dumps` produces and
`json.loads` consumes: serializing a document to text and reparsing it yields
the same document, so the string layer is elided. -/
inductive JValue where
  | null
  | jbool (b : Bool)
  | jnum (n : Int)
  | jstr (s : String)
  | jarr (elems : List JValue)
  | jobj (entries : List (String × JValue))

/-- Key coercion of `json.dumps`: string keys kept, `int`/`bool`/`None` keys
stringified, any other key raises `TypeError` (modelled as `none`). -/
def keyStr : PyKey → Option String
  | .kstr s => some s
  | .kint n => some (toString n)
  | .kbool true => some "true"
  | .kbool false => some "false"
  | .knone => some "null"
  | .khashable _ => none

mutual

/-- Model of `json.dumps` at the JSON-document level: `none` models the
`TypeError` raised on non-serializable input. -/
def dumps : PyVal → Option JValue
  | .pynone => some .null
  | .pybool b => some (.jbool b)
  | .pyint n => some (.jnum n)
  | .pystr s => some (.jstr s)
  | .pylist elems => (dumpsList elems).map .jarr
  | .pydict entries => (dumpsDict entries).map .jobj
  | .pyobj _ => none

/-- Serialization of the elements of a Python list. -/
def dumpsList : List PyVal → Option (List JValue)
  | [] => some []
  | v :: rest =>
    match dumps v, dumpsList rest with
    | some j, some js => some (j :: js)
    | _, _ => none

/-- Serialization of the entries of a Python dict, coercing every key. -/
def dumpsDict : List (PyKey × PyVal) → Option (List (String × JValue))
  | [] => some []
  | (k, v) :: rest =>
    match keyStr k, dumps v, dumpsDict rest with
    | some ks, some j, some js => some ((ks, j) :: js)
    | _, _, _ => none

end

mutual

/-- Model of `json.loads`: every JSON object key comes back as a Python
string. -/
def loads : JValue → PyVal
  | .null => .pynone
  | .jbool b => .pybool b
  | .jnum n => .pyint n
  | .jstr s => .pystr s
  | .jarr elems => .pylist (loadsArr elems)
  | .jobj entries => .pydict (loadsObj entries)

/-- Deserialization of a JSON array into a Python list. -/
def loadsArr : List JValue → List PyVal
  | [] => []
  | j :: rest => loads j :: loadsArr rest

/-- Deserialization of a JSON object into a Python dict with string keys. -/
def loadsObj : List (String × JValue) → List (PyKey × PyVal)
  | [] => []
  | (k, j) :: rest => (.kstr k, loads j) :: loadsObj rest

end

mutual

/-- JSON-faithful Python values: every dict key (at every nesting level) is a
string and every component is serializable.  On these, Python JSON decoding
inverts encoding. -/
def jsonFaithful : PyVal → Bool
  | .pynone => true
  | .pybool _ => true
  | .pyint _ => true
  | .pystr _ => true
  | .pylist elems => jsonFaithfulList elems
  | .pydict entries => jsonFaithfulDict entries
  | .pyobj _ => false

/-- JSON-faithfulness of all elements of a Python list. -/
def jsonFaithfulList : List PyVal → Bool
  | [] => true
  | v :: rest => jsonFaithful v && jsonFaithfulList rest

/-- JSON-faithfulness of all entries of a Python dict: keys are strings,
values recursively faithful. -/
def jsonFaithfulDict : List (PyKey × PyVal) → Bool
  | [] => true
  | (.kstr _, v) :: rest => jsonFaithful v && jsonFaithfulDict rest
  | (_, _) :: _ => false

end

/-- The declared Python type of a `JsonEncodedType` column (`type = dict` for
`JSONEncodedDict`, `type = list` for `JSONEncodedList` in `models.py`). -/
inductive PyType where
  | dict
  | list
  deriving DecidableEq, Repr

/-- Result of `self.type()` in `process_bind_param`: the declared type's empty
value. -/
def PyType.empty : PyType → PyVal
  | .dict => .pydict []
  | .list => .pylist []

/-- Model of Python `isinstance(value, self.type)` for the two declared
types. -/
def isinstance : PyVal → PyType → Bool
  | .pydict _, .dict => true
  | .pylist _, .list => true
  | _, _ => false

/-- The `TypeError` exceptions `process_bind_param` can surface: the explicit
raise on a value of the wrong type, and the one `json.dumps` raises on a
non-serializable value. -/
inductive BindError where
  | typeError (msg : String)
  deriving DecidableEq, Repr

/-- Embedding of `models.py` `JsonEncodedType.process_bind_param`: a `None`
value is replaced by the declared type's empty value; a value of the wrong
type raises `TypeError`; the value is then serialized with `json.dumps`. -/
def process_bind_param (t : PyType) (value : PyVal) : Except BindError JValue :=
  let checked : Except BindError PyVal :=
    match value with
    | .pynone => .ok t.empty
    | v =>
      if isinstance v t then .ok v
      else .error (.typeError "supposes to store objects of the declared type")
  match checked with
  | .ok v =>
    match dumps v with
    | some j => .ok j
    | none => .error (.typeError "not JSON serializable")
  | .error e => .error e

/-- Embedding of `models.py` `JsonEncodedType.process_result_value`: a SQL
`NULL` is passed through as `None`, anything else is parsed with
`json.loads`. -/
def process_result_value (value : Option JValue) : Option PyVal :=
  match value with
  | none => none
  | some j => some (loads j)

/-- Round trip through the column type: bind a Python value, then read the
stored JSON back (`none` when binding raised). -/
def bind_then_result (t : PyType) (value : PyVal) : Option PyVal :=
  match process_bind_param t value with
  | .ok j => process_result_value (some j)
  | .error _ => none

/-- The `JSONEncodedDict` column type of `models.py`: declared type `dict`. -/
def JSONEncodedDict : PyType := .dict

/-- The `JSONEncodedList` column type of `models.py`: declared type `list`. -/
def JSONEncodedList : PyType := .list

mutual

/-- Decoding inverts encoding on every JSON-faithful Python value. -/
theorem loads_dumps (v : PyVal) (h : jsonFaithful v = true) :
    (dumps v).map loads = some v := by
  cases v with
  | pynone => rfl
  | pybool b => rfl
  | pyint n => rfl
  | pystr s => rfl
  | pyobj tag => exact absurd h (by simp [jsonFaithful])
  | pylist elems =>
    have ih := loads_dumpsList elems (by simpa [jsonFaithful] using h)
    cases hd : dumpsList elems with
    | none => rw [hd] at ih; cases ih
    | some js =>
      rw [hd] at ih
      have hjs : loadsArr js = elems := by simpa using ih
      simp [dumps, hd, loads, hjs]
  | pydict entries =>
    have ih := loads_dumpsDict entries (by simpa [jsonFaithful] using h)
    cases hd : dumpsDict entries with
    | none => rw [hd] at ih; cases ih
    | some js =>
      rw [hd] at ih
      have hjs : loadsObj js = entries := by simpa using ih
      simp [dumps, hd, loads, hjs]

/-- Decoding inverts encoding elementwise on a list of JSON-faithful
values. -/
theorem loads_dumpsList (elems : List PyVal)
    (h : jsonFaithfulList elems = true) :
    (dumpsList elems).map loadsArr = some elems := by
  cases elems with
  | nil => rfl
  | cons v rest =>
    rw [jsonFaithfulList, Bool.and_eq_true] at h
    have ih1 := loads_dumps v h.1
    have ih2 := loads_dumpsList rest h.2
    cases hd1 : dumps v with
    | none => rw [hd1] at ih1; cases ih1
    | some j =>
      cases hd2 : dumpsList rest with
      | none => rw [hd2] at ih2; cases ih2
      | some js =>
        rw [hd1] at ih1
        rw [hd2] at ih2
        have e1 : loads j = v := by simpa using ih1
        have e2 : loadsArr js = rest := by simpa using ih2
        simp [dumpsList, hd1, hd2, loadsArr, e1, e2]

/-- Decoding inverts encoding entrywise on a dict whose keys are strings and
whose values are JSON-faithful. -/
theorem loads_dumpsDict (entries : List (PyKey × PyVal))
    (h : jsonFaithfulDict entries = true) :
    (dumpsDict entries).map loadsObj = some entries := by
  cases entries with
  | nil => rfl
  | cons kv rest =>
    obtain ⟨k, v⟩ := kv
    cases k with
    | kint n => exact Bool.noConfusion h
    | kbool b => exact Bool.noConfusion h
    | knone => exact Bool.noConfusion h
    | khashable tag => exact Bool.noConfusion h
    | kstr s =>
      rw [show jsonFaithfulDict ((PyKey.kstr s, v) :: rest)
          = (jsonFaithful v && jsonFaithfulDict rest) from rfl,
        Bool.and_eq_true] at h
      have ih1 := loads_dumps v h.1
      have ih2 := loads_dumpsDict rest h.2
      cases hd1 : dumps v with
      | none => rw [hd1] at ih1; cases ih1
      | some j =>
        cases hd2 : dumpsDict rest with
        | none => rw [hd2] at ih2; cases ih2
        | some js =>
          rw [hd1] at ih1
          rw [hd2] at ih2
          have e1 : loads j = v := by simpa using ih1
          have e2 : loadsObj js = rest := by simpa using ih2
          simp [dumpsDict, hd1, hd2, keyStr, loadsObj, e1, e2]

end

/-- C10 counterexample: the dict with the single integer key `1` is a value
of the declared type `dict`, yet decoding after encoding turns its key into
the string key `"1"`, so the round trip is not the identity on every value of
the declared type. -/
theorem json_roundtrip_counterexample :
    isinstance (.pydict [(.kint 1, .pynone)]) JSONEncodedDict = true ∧
    bind_then_result JSONEncodedDict (.pydict [(.kint 1, .pynone)])
      ≠ some (.pydict [(.kint 1, .pynone)]) := by
  refine ⟨rfl, ?_⟩
  rw [show bind_then_result JSONEncodedDict (.pydict [(.kint 1, .pynone)])
      = some (.pydict [(.kstr "1", .pynone)]) from rfl]
  simp

/-- C10 (amended): for the JSON-encoded column types, decoding after encoding
maps `None` to the declared type's empty value — a field bound as `None` is
never read back as `None` — and is the identity on every JSON-faithful value
of the declared type (all dict keys strings, all contents serializable). -/
theorem json_roundtrip_amended (t : PyType) (v : PyVal) :
    (v = .pynone → bind_then_result t v = some t.empty) ∧
    (isinstance v t = true → jsonFaithful v = true →
      bind_then_result t v = some v) := by
  constructor
  · rintro rfl
    cases t <;> rfl
  · intro hinst hfaith
    have hrt := loads_dumps v hfaith
    cases hdv : dumps v with
    | none => rw [hdv] at hrt; cases hrt
    | some j =>
      rw [hdv] at hrt
      have hlj : loads j = v := by simpa using hrt
      cases v with
      | pynone => cases t <;> simp [isinstance] at hinst
      | pybool b => cases t <;> simp [isinstance] at hinst
      | pyint n => cases t <;> simp [isinstance] at hinst
      | pystr s => cases t <;> simp [isinstance] at hinst
      | pyobj tag => cases t <;> simp [isinstance] at hinst
      | pylist elems =>
        cases t with
        | dict => simp [isinstance] at hinst
        | list =>
          simp [bind_then_result, process_bind_param, isinstance, hdv,
            process_result_value, hlj]
      | pydict entries =>
        cases t with
        | list => simp [isinstance] at hinst
        | dict =>
          simp [bind_then_result, process_bind_param, isinstance, hdv,
            process_result_value, hlj]

/-- C10 witness: on `JSONEncodedDict`, a `None` bind is read back as the
empty dict, and a faithful two-level dict round-trips unchanged. -/
theorem json_roundtrip_amended_witness :
    bind_then_result JSONEncodedDict PyVal.pynone
      = some (PyType.empty JSONEncodedDict) ∧
    bind_then_result JSONEncodedDict
        (.pydict [(.kstr "a", .pylist [.pyint 1, .pynone])])
      = some (.pydict [(.kstr "a", .pylist [.pyint 1, .pynone])]) :=
  ⟨(json_roundtrip_amended JSONEncodedDict PyVal.pynone).1 rfl,
   (json_roundtrip_amended JSONEncodedDict
      (.pydict [(.kstr "a", .pylist [.pyint 1, .pynone])])).2 rfl rfl⟩

end Ironic
